import Mathlib

/- Verification of the git-chdiff scripts.

   Sources embedded here:
   - src/git-chdiff.py: the interactive diff command (`main`, lines 74-210)
     and the temp-file janitor (`clean_temp_files`, lines 40-72);
   - src/git-external-chdiff.py: the external-diff proxy command
     (`parse_external_diff_args`, `run_chdiff`, `main`).

   The scripts only orchestrate external processes and the filesystem, so the
   embedding makes every external observation explicit: each subprocess call
   and filesystem probe becomes a field of an environment record, and each
   Python function becomes a Lean function from that environment to its
   observable outcome (return value, messages printed, files created or
   deleted, commands launched, or an uncaught exception). -/

namespace GitChdiff

/-- Python `s.startswith(p)`: the characters of `p` are a prefix of the
characters of `s` (used at git-chdiff.py lines 58, 143, 146, 176). -/
def pyStartswith (s p : String) : Bool := p.data.isPrefixOf s.data

/-- Python `s.endswith(p)`: the characters of `p` are a suffix of the
characters of `s` (used at git-chdiff.py line 154). -/
def pyEndswith (s p : String) : Bool := p.data.isSuffixOf s.data

/-- Python `s.rstrip()` (line 153): drop trailing whitespace. -/
def rstrip (s : String) : String := ⟨(s.data.reverse.dropWhile Char.isWhitespace).reverse⟩

/-- `os.path.join` as used on `TEMP_DIRECTORY` (line 53). -/
def joinPath (d n : String) : String := d ++ "/" ++ n

/-- `TEMP_FILE_SUFFIX = '.temp'` (line 32). -/
def TEMP_FILE_SUFFIX : String := ".temp"

/-- The fixed temp-file name stem, `TEMP_FILE_PREFIX = 'git-chdiff'` in the
source (line 33). -/
def TEMP_FILE_STEM : String := "git-chdiff"

/-- `TEMP_DIRECTORY = '/var/tmp'` (line 34). -/
def TEMP_DIRECTORY : String := "/var/tmp"

/-- The message carried by a `Usage` exception (line 36): the getopt error
text (line 94), or the help message itself, raised for `-h`/`--help`
(line 103, `raise Usage(HELP_MESSAGE)`). -/
inductive UsageMsg where
  | fromGetopt (s : String)
  | helpRequested
deriving DecidableEq

/-- The messages git-chdiff.py prints, kept symbolic (one constructor per
`print` site). -/
inductive Msg where
  | scanning                      -- line 49
  | removingTemp (p : String)     -- line 66
  | cleanFailed                   -- line 71, stderr
  | usagePrelude (m : UsageMsg)   -- line 115, stderr
  | helpMsg                       -- line 116, HELP_MESSAGE to stderr
  | workingOn (p : String)        -- line 126
  | notAFile (p : String)         -- line 129
  | notInRepo (p : String)        -- line 144
  | unchangedSkip (p : String)    -- line 149
  | gitPathFound (p : String)     -- line 159
  | problemRev (rev p : String)   -- line 177
  | problemLine (l : String)      -- line 178
  | tempFileAt (p : String)       -- line 186
  | execFailed                    -- lines 162, 190, 210, stderr
deriving DecidableEq

/-- One entry of the temp directory as the janitor observes it: its name,
whether `os.path.isfile` holds of the joined path (line 55), its owner uid
`os.stat(...)[4]` (line 61), and whether `os.unlink` on it would succeed
(line 67). -/
structure DirEntry where
  name : String
  isFile : Bool
  uid : Nat
  unlinkOk : Bool
deriving DecidableEq

/-- Environment of one `clean_temp_files` run: the result of
`os.listdir(TEMP_DIRECTORY)` (line 51; `none` when the listing or the
`pwd.getpwnam` lookup raises), and the invoking user's uid
`pwd.getpwnam(getpass.getuser())[2]` (line 50). -/
structure CleanEnv where
  listing : Option (List DirEntry)
  myUid : Nat
deriving DecidableEq

/-- Observable outcome of `clean_temp_files`: its return value, the paths it
unlinked in order, and what it printed. -/
structure CleanResult where
  code : Nat
  deleted : List String
  stdout : List Msg
  stderr : List Msg
deriving DecidableEq

/-- The per-entry loop of `clean_temp_files` (lines 52-67). Returns the
unlinked paths, the stdout produced, and `true` when the loop ran to the
end (`false`: an `os.unlink` raised, aborting to the handler at line 69). -/
def cleanLoop (myUid : Nat) (verbose : Bool) : List DirEntry → List String × List Msg × Bool
  | [] => ([], [], true)
  | e :: rest =>
    if !e.isFile then cleanLoop myUid verbose rest
    else if !(pyStartswith e.name TEMP_FILE_STEM) then cleanLoop myUid verbose rest
    else if e.uid != myUid then cleanLoop myUid verbose rest
    else
      let p := joinPath TEMP_DIRECTORY e.name
      let m : List Msg := if verbose then [Msg.removingTemp p] else []
      if e.unlinkOk then
        let r := cleanLoop myUid verbose rest
        (p :: r.1, m ++ r.2.1, r.2.2)
      else ([], m, false)

/-- `clean_temp_files` (lines 40-72) over the observed environment: scan the
fixed temp directory, unlink matching files, return 0; any exception lands
in the handler that prints (only when verbose) and returns 1. -/
def clean_temp_files (verbose : Bool) (env : CleanEnv) : CleanResult :=
  let pre : List Msg := if verbose then [Msg.scanning] else []
  match env.listing with
  | none =>
      { code := 1, deleted := [], stdout := pre,
        stderr := if verbose then [Msg.cleanFailed] else [] }
  | some es =>
      let r := cleanLoop env.myUid verbose es
      if r.2.2 then
        { code := 0, deleted := r.1, stdout := pre ++ r.2.1, stderr := [] }
      else
        { code := 1, deleted := r.1, stdout := pre ++ r.2.1,
          stderr := if verbose then [Msg.cleanFailed] else [] }

/-- The janitor's accept test (lines 55-62): a regular file, named with the
fixed stem, owned by the invoking user. -/
def janitorMatches (myUid : Nat) (e : DirEntry) : Bool :=
  e.isFile && pyStartswith e.name TEMP_FILE_STEM && (e.uid == myUid)

/-- Option values of `main`, with their defaults (lines 80-83). -/
structure Opts where
  shouldClean : Bool
  revision : String
  wait : Bool
  verbose : Bool
deriving DecidableEq

/-- The default revision, line 81: `revision = 'HEAD~0'`. -/
def defaultRevision : String := "HEAD~0"

/-- The defaults set at lines 80-83 before option processing. -/
def initialOpts : Opts :=
  { shouldClean := false, revision := defaultRevision, wait := false, verbose := false }

/-- The revision the help text names (HELP_MESSAGE, line 26: the `-r`
default is described there as HEAD~1, the previous commit). -/
def helpTextRevision : String := "HEAD~1"

/-- The field effects of the option-processing loop (lines 98-113) over
the `(option, value)` pairs getopt returned, for invocations whose
`del(argv[argv.index(...)])` bookkeeping succeeds. `-h`/`--help` raises
`Usage(HELP_MESSAGE)` (line 103), modelled as an error result. The
bookkeeping itself can raise an uncaught `ValueError` (clustered short
options, attached option values) and abort `main` before later options are
processed; that full behavior, including the edited argument vector, is
`processOptsArgv` below. On the options that do get processed the two
agree, so this is the options record of every completing invocation. -/
def processOpts : List (String × String) → Opts → Except UsageMsg Opts
  | [], o => .ok o
  | (opt, val) :: rest, o =>
    let o1 := if opt = "--clean" then { o with shouldClean := true } else o
    if opt = "-h" ∨ opt = "--help" then .error .helpRequested
    else
      let o2 := if opt = "-r" ∨ opt = "--revision" then { o1 with revision := val } else o1
      let o3 := if opt = "-w" ∨ opt = "--wait" then { o2 with wait := true } else o2
      let o4 := if opt = "-v" ∨ opt = "--verbose" then { o3 with verbose := true } else o3
      processOpts rest o4

/-- What one iteration of the per-file loop observes of the outside world:
whether `os.path.isfile` holds (line 127); the `git status` subprocess
result (`none`: `Popen` raised `OSError`; otherwise return code and output
lines); the `git show` output lines (`none`: its `Popen` raised `OSError`);
whether `mkstemp` succeeds and the random middle part of the name it picks;
whether the `chdiff` launch succeeds; and whether `os.unlink` of the temp
file succeeds. -/
structure FileEnv where
  isfile : Bool
  gitStatus : Option (Int × List String)
  gitShow : Option (List String)
  mkstempOk : Bool
  mkstempRand : String
  chdiffOk : Bool
  unlinkOk : Bool
deriving DecidableEq

/-- The uncaught Python exceptions the per-file loop can raise — its
`except` clauses catch only `OSError` (lines 161, 189, 209). -/
inductive PyError where
  | indexError   -- `lines[0]` on empty subprocess output (line 143 / line 176)
  | typeError    -- `temp_file[1]` with `temp_file = None` (line 198)
deriving DecidableEq

/-- The `git status` command string (line 133). -/
def gitStatusCommand (path : String) : String := "git status " ++ path

/-- The `git show` command string (line 167). -/
def gitShowCommand (revision gitPath : String) : String :=
  "git show " ++ revision ++ ":" ++ gitPath

/-- The `chdiff` command string (lines 194-199); the wait flag slot is empty
when `-w` was not given. -/
def chdiffCommand (wait : Bool) (tempFile path : String) : String :=
  "chdiff " ++ (if wait then "--wait" else "") ++ " " ++ tempFile ++ " " ++ path

/-- Name of the file `mkstemp(TEMP_FILE_SUFFIX, TEMP_FILE_PREFIX,
TEMP_DIRECTORY)` creates (lines 182-184): stem, random part, suffix. -/
def tempFileName (rand : String) : String := TEMP_FILE_STEM ++ rand ++ TEMP_FILE_SUFFIX

/-- Full path of the created temp file, inside the fixed directory. -/
def tempFilePath (rand : String) : String := joinPath TEMP_DIRECTORY (tempFileName rand)

/-- The loop over `git status` output looking for the in-repo path
(lines 152-160) under the decoded-text reading of the output: the first
line that, rstripped, ends with the file name yields
`line.split('   ')[-1]`; otherwise `git_path` keeps its initial value
(line 124). In the actual Python-3 run the lines are undecoded bytes and
line 154's `endswith` with a `str` argument raises `TypeError` at the
first line — see `statusPhaseBytes`. -/
def findGitPath (verbose : Bool) (normalized : String) : List String → String × List Msg
  | [] => (normalized, [])
  | l :: rest =>
    let l2 := rstrip l
    if pyEndswith l2 normalized then
      let gp := (l2.splitOn "   ").getLastD l2
      (gp, if verbose then [Msg.gitPathFound gp] else [])
    else findGitPath verbose normalized rest

/-- How the `git status` block hands over control. -/
inductive StatusRes where
  | skipped
  | crashed (e : PyError)
  | proceed (gitPath : String)
deriving DecidableEq

/-- The `git status` block (lines 131-162) under the decoded-text reading
of the subprocess output — the branch each test selects if `lines` holds
text: an `OSError` from `Popen` is caught, printed, and control falls
through with `git_path` unchanged; on a positive return code the first
output line decides — `error:` means untracked (report, skip), `# ` means
unchanged (skip); otherwise the output is searched for the in-repo path.
Returns (stdout, stderr, control). The script is Python-3-only (it uses
f-strings) and never puts the pipe in text mode, so `readlines` actually
yields bytes and the `startswith`/`endswith` calls with `str` arguments
raise `TypeError` instead of branching; that byte-level behavior is
`statusPhaseBytes`. -/
def statusPhase (verbose : Bool) (normalized : String) (env : FileEnv) :
    List Msg × List Msg × StatusRes :=
  match env.gitStatus with
  | none => ([], [Msg.execFailed], .proceed normalized)
  | some (rc, lines) =>
    if rc > 0 then
      match lines with
      | [] => ([], [], .crashed .indexError)
      | l0 :: _ =>
        if pyStartswith l0 "error:" then ([Msg.notInRepo normalized], [], .skipped)
        else if pyStartswith l0 "# " then
          ((if verbose then [Msg.unchangedSkip normalized] else []), [], .skipped)
        else
          let r := findGitPath verbose normalized lines
          (r.2, [], .proceed r.1)
    else
      let r := findGitPath verbose normalized lines
      (r.2, [], .proceed r.1)

/-- How the `git show` block hands over control; `proceed none` is the
fall-through with `temp_file` still `None` after a caught `OSError`. -/
inductive ShowRes where
  | skipped
  | crashed (e : PyError)
  | proceed (tempFile : Option String)
deriving DecidableEq

/-- The `git show` / temp-file block (lines 165-190) under the decoded-text
reading of the output: fetch the revision (`OSError` caught, `temp_file`
stays `None`), scan the first output line for `fatal:`/`error:` (report,
skip), else write the temp file (`mkstemp` failure is an `OSError`, again
leaving `temp_file = None`). In the actual Python-3 run line 176's
`startswith` on bytes raises `TypeError` on any non-empty output — see
`showPhaseBytes`. -/
def showPhase (verbose : Bool) (revision normalized : String) (env : FileEnv) :
    List Msg × List Msg × ShowRes :=
  match env.gitShow with
  | none => ([], [Msg.execFailed], .proceed none)
  | some lines =>
    match lines with
    | [] => ([], [], .crashed .indexError)
    | l0 :: _ =>
      if pyStartswith l0 "fatal:" || pyStartswith l0 "error:" then
        ([Msg.problemRev revision normalized, Msg.problemLine l0], [], .skipped)
      else if env.mkstempOk then
        ((if verbose then [Msg.tempFileAt (tempFilePath env.mkstempRand)] else []),
         [], .proceed (some (tempFilePath env.mkstempRand)))
      else ([], [Msg.execFailed], .proceed none)

/-- Observables of one iteration of the per-file loop. `fetchCmd` is the
`git show` command built for the fetch, `tempFile` the shadow file created
(recorded even if deleted afterwards), `launched` the viewer commands run,
and `tempExistsAfter` whether a created shadow file still exists when the
iteration ends. -/
structure FileResult where
  stdout : List Msg
  stderr : List Msg
  fetchCmd : Option String
  tempFile : Option String
  launched : List String
  tempExistsAfter : Bool
deriving DecidableEq

/-- One iteration either completes (control reaches the next path) or
raises an uncaught exception. -/
inductive FileOutcome where
  | ok (r : FileResult)
  | crash (e : PyError)
deriving DecidableEq

/-- One iteration of the per-file loop (lines 122-210) for the path
`normalized` (the loop works on `os.path.normpath(file_name)`; normpath is
Python library code, so the model receives its output), built from the
decoded-text phases above — the logic each branch of the source executes,
which over-approximates what the byte-level run `processFileBytes` can
reach. The viewer block (lines 193-210) formats the `chdiff` command —
`temp_file[1]` raises an uncaught `TypeError` when no temp file was made —
launches it, and when `wait` is set unlinks the temp file (an unlink
`OSError` is caught and the file survives). -/
def processFile (revision : String) (wait verbose : Bool) (normalized : String)
    (env : FileEnv) : FileOutcome :=
  let vmsg : List Msg := if verbose then [Msg.workingOn normalized] else []
  if !env.isfile then
    .ok { stdout := vmsg ++ [Msg.notAFile normalized], stderr := [],
          fetchCmd := none, tempFile := none, launched := [], tempExistsAfter := false }
  else
    match statusPhase verbose normalized env with
    | (_, _, .crashed e) => .crash e
    | (so, se, .skipped) =>
        .ok { stdout := vmsg ++ so, stderr := se, fetchCmd := none,
              tempFile := none, launched := [], tempExistsAfter := false }
    | (so, se, .proceed gitPath) =>
        match showPhase verbose revision normalized env with
        | (_, _, .crashed e) => .crash e
        | (so2, se2, .skipped) =>
            .ok { stdout := vmsg ++ so ++ so2, stderr := se ++ se2,
                  fetchCmd := some (gitShowCommand revision gitPath),
                  tempFile := none, launched := [], tempExistsAfter := false }
        | (so2, se2, .proceed tempFile) =>
            match tempFile with
            | none => .crash .typeError
            | some tf =>
                if env.chdiffOk then
                  if wait then
                    .ok { stdout := vmsg ++ so ++ so2,
                          stderr := se ++ se2 ++ (if env.unlinkOk then [] else [Msg.execFailed]),
                          fetchCmd := some (gitShowCommand revision gitPath),
                          tempFile := some tf,
                          launched := [chdiffCommand wait tf normalized],
                          tempExistsAfter := !env.unlinkOk }
                  else
                    .ok { stdout := vmsg ++ so ++ so2, stderr := se ++ se2,
                          fetchCmd := some (gitShowCommand revision gitPath),
                          tempFile := some tf,
                          launched := [chdiffCommand wait tf normalized],
                          tempExistsAfter := true }
                else
                  .ok { stdout := vmsg ++ so ++ so2, stderr := se ++ se2 ++ [Msg.execFailed],
                        fetchCmd := some (gitShowCommand revision gitPath),
                        tempFile := some tf, launched := [], tempExistsAfter := true }

/-- Outcome of the whole per-file loop: every iteration completed, or an
uncaught exception aborted it with the remaining paths unprocessed. -/
inductive LoopOutcome where
  | finished (results : List FileResult)
  | crashed (done : List FileResult) (e : PyError) (remaining : List String)
deriving DecidableEq

/-- Attach one completed iteration in front of a loop outcome. -/
def consLoop (r : FileResult) : LoopOutcome → LoopOutcome
  | .finished rs => .finished (r :: rs)
  | .crashed d e rem => .crashed (r :: d) e rem

/-- The per-file loop (line 122): iterate `processFile`; an uncaught
exception aborts the loop with the remaining paths unprocessed. -/
def processFiles (revision : String) (wait verbose : Bool) :
    List (String × FileEnv) → LoopOutcome
  | [] => .finished []
  | (n, env) :: rest =>
    match processFile revision wait verbose n env with
    | .ok r => consLoop r (processFiles revision wait verbose rest)
    | .crash e => .crashed [] e (rest.map Prod.fst)

/-- The `git status` block (lines 131-162) at the byte level the Python-3
run actually executes: `p.stdout.readlines()` yields undecoded bytes (no
text mode is ever set), so on a positive return code line 143's
`lines[0].startswith('error:')` — a `str` argument on bytes — raises an
uncaught `TypeError` whenever output is present, and `lines[0]` raises
`IndexError` when it is not; with a non-positive return code the
path-search loop's `line.endswith(normalized_file)` at line 154 raises the
same `TypeError` at the first line, so only empty output falls through
(with `git_path` unchanged). An `OSError` from `Popen` is caught and
printed as before. The byte contents never influence control, so the
`List String` field of `FileEnv` serves as the list of byte lines. -/
def statusPhaseBytes (normalized : String) (env : FileEnv) :
    List Msg × List Msg × StatusRes :=
  match env.gitStatus with
  | none => ([], [Msg.execFailed], .proceed normalized)
  | some (rc, lines) =>
    if rc > 0 then
      match lines with
      | [] => ([], [], .crashed .indexError)
      | _ :: _ => ([], [], .crashed .typeError)
    else
      match lines with
      | [] => ([], [], .proceed normalized)
      | _ :: _ => ([], [], .crashed .typeError)

/-- The `git show` / temp-file block (lines 165-190) at the byte level:
line 176's `lines[0].startswith('fatal:')` on bytes raises an uncaught
`TypeError` on any non-empty output and `IndexError` on empty output, so
the `mkstemp` branch (lines 182-188) is unreachable; only an `OSError`
from `Popen` (caught, `temp_file` left `None`) falls through. -/
def showPhaseBytes (env : FileEnv) : List Msg × List Msg × ShowRes :=
  match env.gitShow with
  | none => ([], [Msg.execFailed], .proceed none)
  | some [] => ([], [], .crashed .indexError)
  | some (_ :: _) => ([], [], .crashed .typeError)

/-- One iteration of the per-file loop (lines 122-210) at the byte level:
same skeleton as `processFile`, with the subprocess-output tests behaving
as the Python-3 run has them. Every path through an existing regular file
ends in an uncaught exception — at line 143/154/176, or at line 198's
`temp_file[1]` when a caught `OSError` left `temp_file = None`; only a
path that is not a regular file completes its iteration. -/
def processFileBytes (revision : String) (wait verbose : Bool) (normalized : String)
    (env : FileEnv) : FileOutcome :=
  let vmsg : List Msg := if verbose then [Msg.workingOn normalized] else []
  if !env.isfile then
    .ok { stdout := vmsg ++ [Msg.notAFile normalized], stderr := [],
          fetchCmd := none, tempFile := none, launched := [], tempExistsAfter := false }
  else
    match statusPhaseBytes normalized env with
    | (_, _, .crashed e) => .crash e
    | (so, se, .skipped) =>
        .ok { stdout := vmsg ++ so, stderr := se, fetchCmd := none,
              tempFile := none, launched := [], tempExistsAfter := false }
    | (so, se, .proceed gitPath) =>
        match showPhaseBytes env with
        | (_, _, .crashed e) => .crash e
        | (so2, se2, .skipped) =>
            .ok { stdout := vmsg ++ so ++ so2, stderr := se ++ se2,
                  fetchCmd := some (gitShowCommand revision gitPath),
                  tempFile := none, launched := [], tempExistsAfter := false }
        | (so2, se2, .proceed tempFile) =>
            match tempFile with
            | none => .crash .typeError
            | some tf =>
                if env.chdiffOk then
                  if wait then
                    .ok { stdout := vmsg ++ so ++ so2,
                          stderr := se ++ se2 ++ (if env.unlinkOk then [] else [Msg.execFailed]),
                          fetchCmd := some (gitShowCommand revision gitPath),
                          tempFile := some tf,
                          launched := [chdiffCommand wait tf normalized],
                          tempExistsAfter := !env.unlinkOk }
                  else
                    .ok { stdout := vmsg ++ so ++ so2, stderr := se ++ se2,
                          fetchCmd := some (gitShowCommand revision gitPath),
                          tempFile := some tf,
                          launched := [chdiffCommand wait tf normalized],
                          tempExistsAfter := true }
                else
                  .ok { stdout := vmsg ++ so ++ so2, stderr := se ++ se2 ++ [Msg.execFailed],
                        fetchCmd := some (gitShowCommand revision gitPath),
                        tempFile := some tf, launched := [], tempExistsAfter := true }

/-- The per-file loop (line 122) at the byte level. -/
def processFilesBytes (revision : String) (wait verbose : Bool) :
    List (String × FileEnv) → LoopOutcome
  | [] => .finished []
  | (n, env) :: rest =>
    match processFileBytes revision wait verbose n env with
    | .ok r => consLoop r (processFilesBytes revision wait verbose rest)
    | .crash e => .crashed [] e (rest.map Prod.fst)

/-- Python `del xs[xs.index(x)]`: remove the first occurrence of `x`, or
`none` for the `ValueError` that `xs.index` raises when `x` is absent. -/
def pyDelFirst (xs : List String) (x : String) : Option (List String) :=
  match xs with
  | [] => none
  | y :: t => if y = x then some t else (pyDelFirst t x).map (y :: ·)

/-- How the option loop leaves `main`: updated options and argument vector,
a raised `Usage` (caught at line 114), or an uncaught `ValueError` from the
argv bookkeeping, which crashes the process. -/
inductive OptOutcome where
  | ok (o : Opts) (argv : List String)
  | usage (m : UsageMsg)
  | valueErrorCrash
deriving DecidableEq

/-- One iteration of the option loop body (lines 98-113) for `(opt, val)`:
set the matching option's field, then mirror the
`del(argv[argv.index(...)])` statements (lines 101, 106-107, 110, 113). A
token absent from `argv` — as with clustered short options (`-wh`) or
attached values (`-rX`, `--revision=X`) — makes `argv.index` raise a
`ValueError` that only the `except Usage` handler surrounds, so it is
uncaught. `-h`/`--help` raises `Usage(HELP_MESSAGE)` before any deletion. -/
def optStep (opt val : String) (o : Opts) (argv : List String) : OptOutcome :=
  if opt = "--clean" then
    match pyDelFirst argv opt with
    | none => .valueErrorCrash
    | some argv2 => .ok { o with shouldClean := true } argv2
  else if opt = "-h" ∨ opt = "--help" then .usage .helpRequested
  else if opt = "-r" ∨ opt = "--revision" then
    match pyDelFirst argv opt with
    | none => .valueErrorCrash
    | some argv2 =>
      match pyDelFirst argv2 val with
      | none => .valueErrorCrash
      | some argv3 => .ok { o with revision := val } argv3
  else if opt = "-w" ∨ opt = "--wait" then
    match pyDelFirst argv opt with
    | none => .valueErrorCrash
    | some argv2 => .ok { o with wait := true } argv2
  else if opt = "-v" ∨ opt = "--verbose" then
    match pyDelFirst argv opt with
    | none => .valueErrorCrash
    | some argv2 => .ok { o with verbose := true } argv2
  else .ok o argv

/-- The full option-processing loop (lines 98-113) over getopt's pairs,
threading the mutated `argv`; a raised `Usage` or an uncaught `ValueError`
stops the loop. -/
def processOptsArgv : List (String × String) → Opts → List String → OptOutcome
  | [], o, argv => .ok o argv
  | (opt, val) :: rest, o, argv =>
    match optStep opt val o argv with
    | .ok o2 argv2 => processOptsArgv rest o2 argv2
    | r => r

/-- Result of `main` (lines 74-210): a usage failure (prints to stderr,
returns 2), an uncaught `ValueError` from the option loop's argv
bookkeeping (process dies with a traceback), a cleanup run (returns the
janitor's code), or the per-file loop. -/
inductive MainResult where
  | usage (m : UsageMsg)
  | optionCrash
  | cleaned (r : CleanResult)
  | ran (o : LoopOutcome)
deriving DecidableEq

/-- stderr of the usage handler (lines 115-116): the prelude line carrying
the exception message, then HELP_MESSAGE. -/
def usageStderr (m : UsageMsg) : List Msg := [Msg.usagePrelude m, Msg.helpMsg]

/-- Process exit code of a run (`sys.exit(main())`, line 213): `some n`
when the process exits with `n` (falling off `main` returns `None`, which
`sys.exit` maps to 0); `none` when an uncaught exception aborts the
interpreter with a traceback instead of producing a return value. -/
def mainExitCode : MainResult → Option Nat
  | .usage _ => some 2
  | .optionCrash => none
  | .cleaned r => some r.code
  | .ran (.finished _) => some 0
  | .ran (.crashed _ _ _) => none

/-- `main` (lines 74-210): getopt (its failure raises `Usage`), the option
loop with its argv bookkeeping, then either the janitor (line 120) or the
per-file loop over `argv[1:]` as the loop left it. `parsed` is the getopt
result on the original `argv[1:]`; `normOf` is `os.path.normpath` (Python
library code, supplied to the model) and `envOf` gives each normalized
path's observations of the outside world. -/
def gitChdiffMain (parsed : Except String (List (String × String)))
    (argv : List String) (cleanEnv : CleanEnv)
    (normOf : String → String) (envOf : String → FileEnv) : MainResult :=
  match parsed with
  | .error s => .usage (.fromGetopt s)
  | .ok opts =>
    match processOptsArgv opts initialOpts argv with
    | .valueErrorCrash => .optionCrash
    | .usage m => .usage m
    | .ok o argv2 =>
      if o.shouldClean then .cleaned (clean_temp_files o.verbose cleanEnv)
      else .ran (processFilesBytes o.revision o.wait o.verbose
          ((argv2.drop 1).map (fun n => (normOf n, envOf (normOf n)))))

end GitChdiff

namespace GitExternalChdiff

/-- Messages git-external-chdiff.py prints, kept symbolic. -/
inductive PMsg where
  | insufficientArgs              -- line 33, stderr
  | chdiffNotFound                -- line 49, stderr
  | executing (cmd : List String) -- line 44, stdout, verbose only
deriving DecidableEq

/-- Observables of a proxy run: the argument vectors handed to
`subprocess.run`, the `sys.exit` code (`none`: `main` fell off its end,
so the process exits 0), and what was printed. -/
structure ProxyResult where
  launches : List (List String)
  exitCode : Option Nat
  stdout : List PMsg
  stderr : List PMsg
deriving DecidableEq

/-- `parse_external_diff_args` (lines 14-34): take `argv[2]` and `argv[5]`;
an `IndexError` prints a diagnostic to stderr and exits 1, modelled as the
error result. -/
def parse_external_diff_args (argv : List String) : Except Unit (String × String) :=
  match argv.get? 2, argv.get? 5 with
  | some old, some new => .ok (old, new)
  | _, _ => .error ()

/-- `run_chdiff` (lines 36-50): build `['chdiff', wait_flag, old, new]`,
print it when verbose, hand it to `subprocess.run`; `chdiffFound` is
whether the `chdiff` binary exists — when it does not, the
`FileNotFoundError` handler prints to stderr and exits 1 without a
launch. -/
def run_chdiff (old new : String) (wait verbose chdiffFound : Bool) : ProxyResult :=
  let wf := if wait then "--wait" else ""
  let command := ["chdiff", wf, old, new]
  let out : List PMsg := if verbose then [PMsg.executing command] else []
  if chdiffFound then
    { launches := [command], exitCode := none, stdout := out, stderr := [] }
  else
    { launches := [], exitCode := some 1, stdout := out, stderr := [PMsg.chdiffNotFound] }

/-- `main` of the proxy (lines 52-57): parse the git-supplied vector, then
`run_chdiff(old, new, wait=True, verbose=False)`. -/
def proxyMain (argv : List String) (chdiffFound : Bool) : ProxyResult :=
  match parse_external_diff_args argv with
  | .error _ =>
      { launches := [], exitCode := some 1, stdout := [], stderr := [PMsg.insufficientArgs] }
  | .ok (old, new) => run_chdiff old new true false chdiffFound

end GitExternalChdiff

namespace GitChdiff

/-- Environment for the C1 failing input: `a.txt` exists and is tracked
(`git status` exits 0), but the `git show` launch raises `OSError`. -/
def c1EnvA : FileEnv :=
  { isfile := true, gitStatus := some (0, []), gitShow := none,
    mkstempOk := true, mkstempRand := "abc123", chdiffOk := true, unlinkOk := true }

/-- Environment for the second path of the C1 failing input (never
reached). -/
def c1EnvB : FileEnv :=
  { isfile := false, gitStatus := none, gitShow := none,
    mkstempOk := true, mkstempRand := "", chdiffOk := true, unlinkOk := true }

/-- Janitor environment with two matching temp files owned by uid 7, the
first of which fails to unlink. -/
def c6Env : CleanEnv :=
  { listing := some
      [{ name := "git-chdiffaaa.temp", isFile := true, uid := 7, unlinkOk := false },
       { name := "git-chdiffbbb.temp", isFile := true, uid := 7, unlinkOk := true }],
    myUid := 7 }

/-- Janitor environment exercising every accept/reject condition: a
directory, a foreign-owned file, a wrongly named file, and two matching
files. -/
def c2Env : CleanEnv :=
  { listing := some
      [{ name := "git-chdiffdir.temp", isFile := false, uid := 7, unlinkOk := true },
       { name := "git-chdiffxxx.temp", isFile := true, uid := 9, unlinkOk := true },
       { name := "other-file", isFile := true, uid := 7, unlinkOk := true },
       { name := "git-chdiffyyy.temp", isFile := true, uid := 7, unlinkOk := true },
       { name := "git-chdiffzzz.temp", isFile := true, uid := 7, unlinkOk := true }],
    myUid := 7 }

/-- Environment for a fully successful iteration: tracked file, clean
`git show`, temp file `XYZ`, viewer launch and unlink all fine. -/
def c3Env : FileEnv :=
  { isfile := true, gitStatus := some (0, []), gitShow := some ["content"],
    mkstempOk := true, mkstempRand := "XYZ", chdiffOk := true, unlinkOk := true }

/-- Environment for an untracked path: `git status` exits 1 and its first
output line carries the `error:` marker. -/
def c8Env : FileEnv :=
  { isfile := true,
    gitStatus := some (1, ["error: pathspec w.txt did not match any files"]),
    gitShow := none, mkstempOk := true, mkstempRand := "", chdiffOk := true,
    unlinkOk := true }

/-- Environment for a fully successful iteration used with C9 (identical in
shape to `c3Env`, kept separate). -/
def c9Env : FileEnv :=
  { isfile := true, gitStatus := some (0, []), gitShow := some ["content"],
    mkstempOk := true, mkstempRand := "XYZ", chdiffOk := true, unlinkOk := true }

/-- The iteration result the C9 witness environment produces. -/
def c9Result : FileResult :=
  { stdout := [], stderr := [],
    fetchCmd := some (gitShowCommand "HEAD~0" "w.txt"),
    tempFile := some (tempFilePath "XYZ"),
    launched := [chdiffCommand false (tempFilePath "XYZ") "w.txt"],
    tempExistsAfter := true }

theorem list_isPrefixOf_append (l1 l2 : List Char) : l1.isPrefixOf (l1 ++ l2) = true := by
  induction l1 with
  | nil => simp [List.isPrefixOf]
  | cons a as ih => simp [List.isPrefixOf, ih]

theorem list_isSuffixOf_append (l1 l2 : List Char) : l2.isSuffixOf (l1 ++ l2) = true := by
  simp only [List.isSuffixOf, List.reverse_append]
  exact list_isPrefixOf_append l2.reverse l1.reverse

/-- A name of the fixed temp-file shape passes the janitor's stem test. -/
theorem tempFileName_stem (rand : String) :
    pyStartswith (tempFileName rand) TEMP_FILE_STEM = true := by
  unfold pyStartswith tempFileName
  rw [String.data_append, String.data_append, List.append_assoc]
  exact list_isPrefixOf_append _ _

/-- A name of the fixed temp-file shape carries the fixed suffix. -/
theorem tempFileName_tail (rand : String) :
    pyEndswith (tempFileName rand) TEMP_FILE_SUFFIX = true := by
  unfold pyEndswith tempFileName
  rw [String.data_append, String.data_append]
  exact list_isSuffixOf_append _ _

/-- When every unlink succeeds, the janitor's loop deletes precisely the
matching entries, in order, and completes. -/
theorem cleanLoop_complete (u : Nat) (v : Bool) (es : List DirEntry)
    (h : ∀ e ∈ es, e.unlinkOk = true) :
    (cleanLoop u v es).1
        = (es.filter (janitorMatches u)).map (fun e => joinPath TEMP_DIRECTORY e.name)
      ∧ (cleanLoop u v es).2.2 = true := by
  induction es with
  | nil => simp [cleanLoop]
  | cons e rest ih =>
    have he : e.unlinkOk = true := h e (by simp)
    obtain ⟨ih1, ih2⟩ := ih (fun x hx => h x (by simp [hx]))
    by_cases hu : e.uid = u <;> cases hf : e.isFile <;>
      cases hp : pyStartswith e.name TEMP_FILE_STEM <;>
        simp [cleanLoop, janitorMatches, hf, hp, hu, he, ih1, ih2]

/-- Everything the janitor's loop deletes is a matching regular file of the
listing — never a directory, never a wrongly named or foreign file. -/
theorem cleanLoop_sound (u : Nat) (v : Bool) (es : List DirEntry) :
    ∀ p ∈ (cleanLoop u v es).1,
      ∃ e ∈ es, p = joinPath TEMP_DIRECTORY e.name ∧ e.isFile = true ∧
        pyStartswith e.name TEMP_FILE_STEM = true ∧ e.uid = u := by
  induction es with
  | nil => simp [cleanLoop]
  | cons e rest ih =>
    intro p hpmem
    by_cases hu : e.uid = u <;> cases hf : e.isFile <;>
        cases hp2 : pyStartswith e.name TEMP_FILE_STEM <;> cases hok : e.unlinkOk <;>
        simp [cleanLoop, hu, hf, hp2, hok] at hpmem <;>
      first
        | (rcases hpmem with rfl | hpm
           · exact ⟨e, by simp, rfl, hf, hp2, hu⟩
           · obtain ⟨e2, he2, h3⟩ := ih p hpm
             exact ⟨e2, by simp [he2], h3⟩)
        | (obtain ⟨e2, he2, h3⟩ := ih p hpmem
           exact ⟨e2, by simp [he2], h3⟩)

/-- The deleted set reported by `clean_temp_files` is that of its loop. -/
theorem clean_deleted (v : Bool) (env : CleanEnv) (es : List DirEntry)
    (hl : env.listing = some es) :
    (clean_temp_files v env).deleted = (cleanLoop env.myUid v es).1 := by
  simp only [clean_temp_files, hl]
  split <;> rfl

/-- C2. The janitor deletes exactly the regular files of the fixed temp
directory whose name starts with the fixed stem and whose owner uid is the
invoking user's (first conjunct, when every unlink goes through); whatever
it deletes — even if a delete error aborts the scan — is such a matching
regular file, so it never removes a directory or a file failing the name
or ownership test (second conjunct). -/
theorem c2_janitor_deletes_exactly_matching (v : Bool) (env : CleanEnv)
    (es : List DirEntry) (hl : env.listing = some es) :
    ((∀ e ∈ es, e.unlinkOk = true) →
      (clean_temp_files v env).deleted
        = (es.filter (janitorMatches env.myUid)).map (fun e => joinPath TEMP_DIRECTORY e.name)) ∧
    (∀ p ∈ (clean_temp_files v env).deleted,
      ∃ e ∈ es, p = joinPath TEMP_DIRECTORY e.name ∧ e.isFile = true ∧
        pyStartswith e.name TEMP_FILE_STEM = true ∧ e.uid = env.myUid) := by
  constructor
  · intro h
    rw [clean_deleted v env es hl]
    exact (cleanLoop_complete env.myUid v es h).1
  · intro p hp
    rw [clean_deleted v env es hl] at hp
    exact cleanLoop_sound env.myUid v es p hp

/-- C2 witness: on the concrete `c2Env` listing the deleted set is exactly
the two matching files, the directory and the foreign and wrongly named
files survive. -/
theorem c2_witness :
    c2Env.listing = some ((c2Env.listing).getD []) ∧
    ((∀ e ∈ (c2Env.listing).getD [], e.unlinkOk = true) →
      (clean_temp_files false c2Env).deleted
        = (((c2Env.listing).getD []).filter (janitorMatches c2Env.myUid)).map
            (fun e => joinPath TEMP_DIRECTORY e.name)) ∧
    (∀ p ∈ (clean_temp_files false c2Env).deleted,
      ∃ e ∈ (c2Env.listing).getD [], p = joinPath TEMP_DIRECTORY e.name ∧ e.isFile = true ∧
        pyStartswith e.name TEMP_FILE_STEM = true ∧ e.uid = c2Env.myUid) := by
  refine ⟨rfl, ?_⟩
  exact c2_janitor_deletes_exactly_matching false c2Env ((c2Env.listing).getD []) rfl

/-- C6 counterexample: in `c6Env` the directory listing succeeds and
exactly one file's unlink raises, yet `clean_temp_files` returns the
failure indicator 1 — the run fails — and the second matching file is left
undeleted, refuting "a single file's delete error never fails the
janitor's overall run". -/
theorem c6_counterexample_delete_error_fails_run :
    (clean_temp_files false c6Env).code = 1 ∧
    ¬ (clean_temp_files false c6Env).code = 0 ∧
    (clean_temp_files false c6Env).deleted = [] := by
  refine ⟨rfl, by decide, rfl⟩

/-- C6 amended: `clean_temp_files` returns 1 exactly when the directory
listing (or uid lookup) raises or the scan aborts on a failing unlink — so
a single file's delete error does fail the run, ending the scan — and 0
otherwise; the diagnostic goes to stderr exactly when the run failed with
verbose set. -/
theorem c6_amended_failure_indicator (verbose : Bool) (env : CleanEnv) :
    ((clean_temp_files verbose env).code = 0 ∨ (clean_temp_files verbose env).code = 1) ∧
    ((clean_temp_files verbose env).code = 1 ↔
      env.listing = none ∨
        ∃ es, env.listing = some es ∧ (cleanLoop env.myUid verbose es).2.2 = false) ∧
    ((clean_temp_files verbose env).stderr
        = if verbose = true ∧ (clean_temp_files verbose env).code = 1
          then [Msg.cleanFailed] else []) := by
  cases hl : env.listing with
  | none => cases verbose <;> simp [clean_temp_files, hl]
  | some es =>
    cases hok : (cleanLoop env.myUid verbose es).2.2 <;>
      cases verbose <;> simp [clean_temp_files, hl, hok]

/-- C1 (code bug): a subprocess launch failure does abort the run — with
`a.txt` tracked but its `git show` launch raising `OSError` (caught and
reported at line 190), `temp_file` is still `None` when the viewer block
formats its command, so `temp_file[1]` at line 198 raises a `TypeError`
that no `except OSError` catches; the loop dies and `b.txt` is never
processed. -/
theorem c1_show_launch_failure_crashes_run :
    processFiles "HEAD~0" false false [("a.txt", c1EnvA), ("b.txt", c1EnvB)]
      = .crashed [] .typeError ["b.txt"] := rfl

/-- C3 (code bug): the wait-controlled shadow-file lifetime of
lines 193-208 is dead code. On `c3Env` — an existing tracked file whose
`git show` emits output — the byte-level run raises an uncaught
`TypeError` at line 176 before `mkstemp` or the viewer launch, so with the
wait flag set the iteration crashes instead of ever creating, diffing and
deleting a shadow file, and the loop dies with it. -/
theorem c3_bytes_crash_before_viewer :
    processFileBytes "HEAD~0" true false "f.txt" c3Env = .crash .typeError ∧
    processFilesBytes "HEAD~0" true false [("f.txt", c3Env)]
      = .crashed [] .typeError [] ∧
    (∀ r, processFileBytes "HEAD~0" true false "f.txt" c3Env ≠ .ok r) :=
  ⟨rfl, rfl, fun _ h => FileOutcome.noConfusion h⟩

/-- C8 (code bug): the untracked report-and-skip of lines 143-145 is dead
code. On `c8Env` — an existing but untracked file, `git status` exiting 1
with a first output line carrying the `error:` marker — line 143 calls
`startswith` with a `str` argument on a bytes line, raising an uncaught
`TypeError`: the run aborts with no skip message and the next path is
never processed. -/
theorem c8_bytes_crash_on_untracked :
    processFileBytes "HEAD~0" false false "w.txt" c8Env = .crash .typeError ∧
    processFilesBytes "HEAD~0" false false
        [("w.txt", c8Env), ("x.txt", (⟨false, none, none, true, "", true, true⟩ : FileEnv))]
      = .crashed [] .typeError ["x.txt"] :=
  ⟨rfl, rfl⟩

/-- The `git show` block only ever hands over a temp path of the fixed
shape. -/
theorem showPhase_temp_shape (verbose : Bool) (revision normalized : String)
    (env : FileEnv) (so se : List Msg) (tf : String)
    (h : showPhase verbose revision normalized env = (so, se, .proceed (some tf))) :
    tf = tempFilePath env.mkstempRand := by
  cases hgs : env.gitShow with
  | none => simp [showPhase, hgs] at h
  | some lines =>
    cases lines with
    | nil => simp [showPhase, hgs] at h
    | cons l0 rest =>
      simp only [showPhase, hgs] at h
      split at h <;> (try split at h) <;> simp_all

/-- C9: any shadow file an iteration creates lives in the fixed temp
directory under a name that starts with the fixed stem and carries the
fixed suffix, so the janitor's name filter accepts it. -/
theorem c9_temp_names_recognized (revision : String) (wait verbose : Bool)
    (normalized : String) (env : FileEnv) (r : FileResult) (t : String)
    (h : processFile revision wait verbose normalized env = .ok r)
    (ht : r.tempFile = some t) :
    ∃ base, t = joinPath TEMP_DIRECTORY base ∧
      pyStartswith base TEMP_FILE_STEM = true ∧
      pyEndswith base TEMP_FILE_SUFFIX = true := by
  have hshape : t = tempFilePath env.mkstempRand := by
    unfold processFile at h
    cases hif : env.isfile <;> rw [hif] at h <;> simp only [Bool.not_true, Bool.not_false] at h
    · simp at h
      subst h
      simp at ht
    · rcases hsp : statusPhase verbose normalized env with ⟨so, se, sres⟩
      rw [hsp] at h
      cases sres with
      | crashed e => simp at h
      | skipped =>
        simp at h
        subst h
        simp at ht
      | proceed gp =>
        rcases hsh : showPhase verbose revision normalized env with ⟨so2, se2, sres2⟩
        rw [hsh] at h
        cases sres2 with
        | crashed e => simp at h
        | skipped =>
          simp at h
          subst h
          simp at ht
        | proceed tfo =>
          cases tfo with
          | none => simp at h
          | some tf =>
            have htf : tf = tempFilePath env.mkstempRand :=
              showPhase_temp_shape verbose revision normalized env so2 se2 tf hsh
            cases hch : env.chdiffOk <;> cases hw : wait <;>
              simp only [hch, hw, Bool.false_eq_true, if_false, if_true,
                ite_true, ite_false, FileOutcome.ok.injEq] at h <;>
              subst h <;> simp at ht <;> subst ht <;> exact htf
  exact ⟨tempFileName env.mkstempRand, by rw [hshape]; rfl,
    tempFileName_stem _, tempFileName_tail _⟩

/-- C9 witness: the shadow file of the concrete `c9Env` iteration is in
the fixed directory, with the stem and the suffix. -/
theorem c9_witness :
    ∃ base, tempFilePath "XYZ" = joinPath TEMP_DIRECTORY base ∧
      pyStartswith base TEMP_FILE_STEM = true ∧
      pyEndswith base TEMP_FILE_SUFFIX = true :=
  c9_temp_names_recognized "HEAD~0" false false "w.txt" c9Env c9Result
    (tempFilePath "XYZ") rfl rfl

/-- Option processing never changes the revision when no `-r`/`--revision`
pair is present. -/
theorem processOpts_keeps_revision (opts : List (String × String)) :
    ∀ o0 o : Opts, (∀ p ∈ opts, p.1 ≠ "-r" ∧ p.1 ≠ "--revision") →
      processOpts opts o0 = .ok o → o.revision = o0.revision := by
  induction opts with
  | nil =>
    intro o0 o _ h
    simp [processOpts] at h
    rw [← h]
  | cons p rest ih =>
    intro o0 o hno h
    obtain ⟨h1, h2⟩ := hno p (by simp)
    simp only [processOpts] at h
    split at h
    · exact absurd h (by simp)
    · have hr := ih _ o (fun q hq => hno q (by simp [hq])) h
      rw [hr]
      split_ifs <;> simp_all

/-- C5: without `-r`/`--revision` the revision used for the content fetch
is the default `HEAD~0` of line 81 — denoting the current committed state —
and not the `HEAD~1` that the help text (line 26) describes as the
default. -/
theorem c5_default_is_head0_not_help_head1 (opts : List (String × String)) (o : Opts)
    (hno : ∀ p ∈ opts, p.1 ≠ "-r" ∧ p.1 ≠ "--revision")
    (h : processOpts opts initialOpts = .ok o) :
    o.revision = defaultRevision ∧ defaultRevision = "HEAD~0" ∧
    helpTextRevision = "HEAD~1" ∧ defaultRevision ≠ helpTextRevision ∧
    ∀ gitPath, gitShowCommand o.revision gitPath = "git show HEAD~0:" ++ gitPath := by
  have hrev : o.revision = defaultRevision :=
    processOpts_keeps_revision opts initialOpts o hno h
  refine ⟨hrev, rfl, rfl, by decide, ?_⟩
  intro gp
  rw [hrev]
  rfl

/-- C5 witness: parsing `-v` alone keeps the fetch revision at HEAD~0. -/
theorem c5_witness :
    (⟨false, "HEAD~0", false, true⟩ : Opts).revision = defaultRevision ∧
    defaultRevision = "HEAD~0" ∧ helpTextRevision = "HEAD~1" ∧
    defaultRevision ≠ helpTextRevision ∧
    ∀ gitPath, gitShowCommand (⟨false, "HEAD~0", false, true⟩ : Opts).revision gitPath
      = "git show HEAD~0:" ++ gitPath :=
  c5_default_is_head0_not_help_head1 [("-v", "")] _ (by decide) rfl

/-- When every option before `-h`/`--help` processed cleanly (its argv
bookkeeping succeeded), the loop reaches the `-h`/`--help` pair and raises
the `Usage` exception carrying the help message. -/
theorem processOptsArgv_help (hopt v : String) (hh : hopt = "-h" ∨ hopt = "--help")
    (post : List (String × String)) :
    ∀ (pre : List (String × String)) (o : Opts) (argv argv2 : List String) (o2 : Opts),
      processOptsArgv pre o argv = .ok o2 argv2 →
      processOptsArgv (pre ++ (hopt, v) :: post) o argv = .usage .helpRequested := by
  intro pre
  induction pre with
  | nil =>
    intro o argv argv2 o2 _
    rcases hh with rfl | rfl <;> rfl
  | cons p rest ih =>
    intro o argv argv2 o2 hpre
    obtain ⟨a, b⟩ := p
    simp only [processOptsArgv, List.cons_append] at hpre ⊢
    cases hs : optStep a b o argv <;> simp only [hs] at hpre ⊢
    · exact ih _ _ argv2 o2 hpre
    · exact absurd hpre (by simp)
    · exact absurd hpre (by simp)

/-- C10 counterexample: `git-chdiff -wh`. getopt yields `('-w','')` before
`('-h','')`, but `argv` holds the clustered token `-wh`, so
`argv.index('-w')` at line 110 raises an uncaught `ValueError`: the run
crashes with a traceback before the `-h` is reached — no help on stderr,
no return 2 — refuting the claim for this `-h` invocation. -/
theorem c10_counterexample_clustered_crash :
    gitChdiffMain (.ok [("-w", ""), ("-h", "")]) ["git-chdiff", "-wh"]
        { listing := some [], myUid := 0 } (fun n => n)
        (fun _ => ⟨false, none, none, true, "", true, true⟩)
      = .optionCrash ∧
    mainExitCode .optionCrash = none ∧
    mainExitCode .optionCrash ≠ some 2 :=
  ⟨rfl, rfl, by decide⟩

/-- C10 amended: provided every option processed before the `-h`/`--help`
appears as its own element of `argv` (so its `del` bookkeeping succeeds —
options unclustered, the `-r` value detached), `-h`/`--help` goes through
the very Usage path an argument-parsing failure takes: the help message
lands on stderr and `main` returns 2, not 0. Otherwise the loop crashes
with a `ValueError` first, as the counterexample shows. -/
theorem c10_amended_help_exits_2 (pre post : List (String × String))
    (hopt v : String) (hh : hopt = "-h" ∨ hopt = "--help")
    (argv argv2 : List String) (o2 : Opts)
    (hpre : processOptsArgv pre initialOpts argv = .ok o2 argv2)
    (cleanEnv : CleanEnv) (normOf : String → String) (envOf : String → FileEnv) :
    gitChdiffMain (.ok (pre ++ (hopt, v) :: post)) argv cleanEnv normOf envOf
        = .usage .helpRequested ∧
    mainExitCode (.usage .helpRequested) = some 2 ∧
    Msg.helpMsg ∈ usageStderr .helpRequested ∧
    (∀ s, gitChdiffMain (.error s) argv cleanEnv normOf envOf = .usage (.fromGetopt s) ∧
      mainExitCode (.usage (.fromGetopt s)) = some 2) ∧
    (2 : Nat) ≠ 0 := by
  refine ⟨?_, rfl, by simp [usageStderr], fun s => ⟨rfl, rfl⟩, by decide⟩
  simp [gitChdiffMain,
    processOptsArgv_help hopt v hh post pre initialOpts argv argv2 o2 hpre]

/-- C10 witness: `git-chdiff -w -h` with the options unclustered — the
`-w` deletes cleanly from `argv` and the `-h` exits 2 with help on
stderr. -/
theorem c10_witness :
    gitChdiffMain (.ok [("-w", ""), ("-h", "")]) ["git-chdiff", "-w", "-h"]
        { listing := some [], myUid := 0 } (fun n => n)
        (fun _ => ⟨false, none, none, true, "", true, true⟩)
      = .usage .helpRequested ∧
    mainExitCode (.usage .helpRequested) = some 2 ∧
    Msg.helpMsg ∈ usageStderr .helpRequested ∧
    (∀ s, gitChdiffMain (.error s) ["git-chdiff", "-w", "-h"]
        { listing := some [], myUid := 0 } (fun n => n)
        (fun _ => ⟨false, none, none, true, "", true, true⟩) = .usage (.fromGetopt s) ∧
      mainExitCode (.usage (.fromGetopt s)) = some 2) ∧
    (2 : Nat) ≠ 0 :=
  c10_amended_help_exits_2 [("-w", "")] [] "-h" "" (Or.inl rfl)
    ["git-chdiff", "-w", "-h"] ["git-chdiff", "-h"] ⟨false, "HEAD~0", true, false⟩ rfl
    { listing := some [], myUid := 0 } (fun n => n)
    (fun _ => ⟨false, none, none, true, "", true, true⟩)

end GitChdiff

namespace GitExternalChdiff

/-- C4: on an argument vector of at least six entries (and with the viewer
binary present) the proxy launches the viewer exactly once, on `argv[2]`
and `argv[5]`, with the wait flag set; the launched command is the same
whatever the verbosity, which only adds a stdout trace. -/
theorem c4_proxy_launches_once_with_wait (argv : List String)
    (h6 : 6 ≤ argv.length) :
    proxyMain argv true =
      { launches := [["chdiff", "--wait", argv.getD 2 "", argv.getD 5 ""]],
        exitCode := none, stdout := [], stderr := [] } ∧
    ∀ verbose wait : Bool,
      (run_chdiff (argv.getD 2 "") (argv.getD 5 "") wait verbose true).launches
        = [["chdiff", if wait then "--wait" else "", argv.getD 2 "", argv.getD 5 ""]] := by
  rcases argv with _ | ⟨a0, _ | ⟨a1, _ | ⟨a2, _ | ⟨a3, _ | ⟨a4, _ | ⟨a5, rest⟩⟩⟩⟩⟩⟩
  all_goals first
    | exact ⟨rfl, fun verbose wait => by cases verbose <;> cases wait <;> rfl⟩
    | exact absurd h6 (by simp only [List.length_cons, List.length_nil]; omega)

/-- C4 witness at the seven-slot vector git supplies. -/
theorem c4_witness :
    proxyMain ["prog", "repo", "old/path", "sha1", "repo", "new/path", "sha2"] true =
      { launches := [["chdiff", "--wait", "old/path", "new/path"]],
        exitCode := none, stdout := [], stderr := [] } ∧
    ∀ verbose wait : Bool,
      (run_chdiff "old/path" "new/path" wait verbose true).launches
        = [["chdiff", if wait then "--wait" else "", "old/path", "new/path"]] :=
  c4_proxy_launches_once_with_wait
    ["prog", "repo", "old/path", "sha1", "repo", "new/path", "sha2"] (by decide)

/-- C7: on fewer than six arguments the proxy prints its diagnostic to
stderr and exits 1 without ever launching the viewer. -/
theorem c7_short_vector_fails_fatally (argv : List String) (h : argv.length < 6)
    (chdiffFound : Bool) :
    proxyMain argv chdiffFound =
      { launches := [], exitCode := some 1, stdout := [],
        stderr := [PMsg.insufficientArgs] } := by
  rcases argv with _ | ⟨a0, _ | ⟨a1, _ | ⟨a2, _ | ⟨a3, _ | ⟨a4, _ | ⟨a5, rest⟩⟩⟩⟩⟩⟩
  all_goals first
    | rfl
    | exact absurd h (by simp only [List.length_cons, List.length_nil]; omega)

/-- C7 witness on a one-entry vector. -/
theorem c7_witness :
    proxyMain ["prog"] true =
      { launches := [], exitCode := some 1, stdout := [],
        stderr := [PMsg.insufficientArgs] } :=
  c7_short_vector_fails_fatally ["prog"] (by decide) true

end GitExternalChdiff
